import Mathlib

/-!
Shallow embedding of the order/payment workflow of the e-commerce repository:

* payment service: src/services/payment-service/src/models/Payment.ts and
  src/services/payment-service/src/routes/payments.ts (the create-intent,
  confirm, refund routes and the Stripe webhook handlers);
* order service: the Order model (src/unnamed/part_003), the OrderItem model
  (src/unnamed/part_002) and src/services/order-service/src/routes/orders.ts
  (order creation, the generic update route and the cancel route).

Conventions of the embedding:

* JavaScript numbers and DECIMAL(10,2) columns are idealised as exact
  rationals; Math.round x is the exact round-half-up, the floor of x + 1/2.
* Route handlers are modelled from the point where the aggregate row has been
  found and express-validator has run; validator rules are reproduced as
  explicit Bool predicates.
* External collaborators (product service over axios, the Stripe gateway) are
  explicit inputs: an environment of responses, where a thrown axios error is
  the .error case of an Except.
* Database writes are explicit state passing; the interruption of a request
  between two awaited writes is modelled by executing a prefix of its writes.

The file holds the definitions first — the aggregates, routes and workflows
translated from the source, followed by the concrete sample stores, requests
and gateway answers the closed statements evaluate — and the theorems after
them.
-/

namespace ECommerce

/-- Money amounts: JS numbers / DECIMAL(10,2) columns idealised as rationals. -/
abbrev Money := ℚ

/-- PaymentStatus enum of Payment.ts (lines 4-12). -/
inductive PaymentStatus
  | pending
  | processing
  | succeeded
  | failed
  | cancelled
  | refunded
  | partiallyRefunded
  deriving DecidableEq, Repr

/-- Content of the paymentMethodDetails JSON column: NULL (never written),
the empty object, or a masked card snapshot. -/
inductive MethodDetails
  | noDetails
  | emptyObject
  | card (brand : String) (last4 : String) (expMonth : Nat) (expYear : Nat)
  deriving DecidableEq, Repr

/-- Payment row (Payment.ts attributes; metadata and the timestamps are
omitted, no modelled operation reads them). -/
structure Payment where
  id : Nat
  orderId : Nat
  userId : Nat
  stripePaymentIntentId : Option String := none
  stripeChargeId : Option String := none
  amount : Money
  currency : String := "USD"
  status : PaymentStatus
  paymentMethodDetails : MethodDetails := MethodDetails.noDetails
  refundedAmount : Money := 0
  failureReason : Option String := none
  deriving DecidableEq, Repr

/-- Payment.canBeRefunded (Payment.ts lines 82-84): succeeded with
refundedAmount still below amount. -/
def Payment.canBeRefunded (p : Payment) : Bool :=
  decide (p.status = PaymentStatus.succeeded ∧ p.refundedAmount < p.amount)

/-- Payment.getRemainingRefundableAmount (Payment.ts lines 87-89). -/
def Payment.getRemainingRefundableAmount (p : Payment) : Money :=
  p.amount - p.refundedAmount

/-- Payment.addRefund (Payment.ts lines 101-111): add to refundedAmount, then
recompute status from the new cumulative amount. -/
def Payment.addRefund (p : Payment) (refundAmount : Money) : Payment :=
  let refunded := p.refundedAmount + refundAmount
  { p with
    refundedAmount := refunded
    status :=
      if p.amount ≤ refunded then PaymentStatus.refunded
      else PaymentStatus.partiallyRefunded }

/-- Distinct outcomes of the refund route: the express-validator 400, the 404,
the two 400 bodies of the route, and the 500 raised when the Stripe call
throws before the local row is touched. -/
inductive RefundError
  | validationFailed
  | paymentNotFound
  | cannotBeRefunded
  | exceedsRemaining
  | gatewayFailure
  deriving DecidableEq, Repr

/-- refundValidation (payments.ts lines 29-33): an explicit amount must be at
least 0.01. -/
def refundRequestValid (amount : Option Money) : Bool :=
  match amount with
  | some a => decide ((1 : Money) / 100 ≤ a)
  | none => true

/-- Refund route body after the payment row is found (payments.ts lines
442-492): reject when canBeRefunded fails, default the amount to the
remaining balance, reject an amount above the remaining balance, call the
gateway, and only then apply addRefund. Returns the updated row and the
refunded amount. -/
def refundPayment (p : Payment) (amount : Option Money) (gatewayRefundOk : Bool) :
    Except RefundError (Payment × Money) :=
  if !refundRequestValid amount then Except.error RefundError.validationFailed
  else if !p.canBeRefunded then Except.error RefundError.cannotBeRefunded
  else
    let refundAmount := amount.getD p.getRemainingRefundableAmount
    if p.getRemainingRefundableAmount < refundAmount then
      Except.error RefundError.exceedsRemaining
    else if !gatewayRefundOk then Except.error RefundError.gatewayFailure
    else Except.ok (p.addRefund refundAmount, refundAmount)

/-- A sequence of refund requests applied to one payment: a failing request
leaves the row as it was (the route returns before any local write). -/
def applyRefunds (p : Payment) (reqs : List (Option Money × Bool)) : Payment :=
  reqs.foldl
    (fun q r =>
      match refundPayment q r.1 r.2 with
      | Except.ok (q', _) => q'
      | Except.error _ => q)
    p

/-- Refund invariant of the spec: refundedAmount stays within [0, amount]. -/
def refundInvariant (p : Payment) : Prop :=
  0 ≤ p.refundedAmount ∧ p.refundedAmount ≤ p.amount

instance (p : Payment) : Decidable (refundInvariant p) := by
  unfold refundInvariant; infer_instance

/-- PaymentStatus enum of the Order model (src/unnamed/part_003 lines 14-19);
named OrderPaymentStatus here because the payment service has its own
PaymentStatus enum. -/
inductive OrderPaymentStatus
  | pending
  | paid
  | failed
  | refunded
  deriving DecidableEq, Repr

/-- One call of updateOrderPaymentStatus: the order id and the paymentStatus
value the PUT body carries. -/
structure SyncCall where
  orderId : Nat
  paymentStatus : OrderPaymentStatus
  deriving DecidableEq, Repr

/-- Masked card data of charge.payment_method_details.card. -/
structure CardInfo where
  brand : String
  last4 : String
  expMonth : Nat
  expYear : Nat
  deriving DecidableEq, Repr

/-- charges.data[0] of a retrieved payment intent. -/
structure ChargeInfo where
  id : String
  card : Option CardInfo
  deriving DecidableEq, Repr

/-- Status strings of a Stripe payment intent as the confirm route switches
on them (payments.ts lines 225-258); other s is any string the switch does
not name. -/
inductive StripeIntentStatus
  | succeeded
  | processing
  | requiresPaymentMethod
  | requiresConfirmation
  | requiresAction
  | canceled
  | other (s : String)
  deriving DecidableEq, Repr

/-- A payment intent as re-fetched from the gateway. -/
structure StripeIntent where
  id : String
  status : StripeIntentStatus
  charge : Option ChargeInfo
  lastPaymentErrorMessage : Option String
  deriving DecidableEq, Repr

/-- Confirm route body after the payment row is found: map the re-fetched
gateway status to a local status, snapshot the charge id and masked card
details in the succeeded case (paymentMethodDetails starts from the empty
object and is written back unconditionally), set failureReason in the default
case, save, then issue the order paymentStatus sync. Returns the saved row
and the list of sync calls made. -/
def confirmPayment (p : Payment) (gw : StripeIntent) : Payment × List SyncCall :=
  let saved :=
    match gw.status with
    | StripeIntentStatus.succeeded =>
        match gw.charge with
        | some ch =>
            { p with
              status := PaymentStatus.succeeded
              stripeChargeId := some ch.id
              paymentMethodDetails :=
                match ch.card with
                | some c => MethodDetails.card c.brand c.last4 c.expMonth c.expYear
                | none => MethodDetails.emptyObject }
        | none =>
            { p with
              status := PaymentStatus.succeeded
              paymentMethodDetails := MethodDetails.emptyObject }
    | StripeIntentStatus.processing =>
        { p with
          status := PaymentStatus.processing
          paymentMethodDetails := MethodDetails.emptyObject }
    | StripeIntentStatus.requiresPaymentMethod =>
        { p with
          status := PaymentStatus.pending
          paymentMethodDetails := MethodDetails.emptyObject }
    | StripeIntentStatus.requiresConfirmation =>
        { p with
          status := PaymentStatus.pending
          paymentMethodDetails := MethodDetails.emptyObject }
    | StripeIntentStatus.requiresAction =>
        { p with
          status := PaymentStatus.pending
          paymentMethodDetails := MethodDetails.emptyObject }
    | StripeIntentStatus.canceled =>
        { p with
          status := PaymentStatus.cancelled
          paymentMethodDetails := MethodDetails.emptyObject }
    | StripeIntentStatus.other _ =>
        { p with
          status := PaymentStatus.failed
          failureReason := some (gw.lastPaymentErrorMessage.getD "Unknown error")
          paymentMethodDetails := MethodDetails.emptyObject }
  let syncs :=
    if saved.status = PaymentStatus.succeeded then
      [SyncCall.mk p.orderId OrderPaymentStatus.paid]
    else if saved.status = PaymentStatus.failed ∨ saved.status = PaymentStatus.cancelled then
      [SyncCall.mk p.orderId OrderPaymentStatus.failed]
    else []
  (saved, syncs)

/-- handlePaymentIntentSucceeded: set the status to succeeded, snapshot the
charge id and card details only when the event carries them (the previous
paymentMethodDetails value is kept otherwise, unlike confirm), save, then
sync the order to paid. -/
def handleIntentSucceeded (p : Payment) (gw : StripeIntent) : Payment × List SyncCall :=
  let withCharge :=
    match gw.charge with
    | some ch =>
        let q := { p with status := PaymentStatus.succeeded, stripeChargeId := some ch.id }
        match ch.card with
        | some c =>
            { q with paymentMethodDetails := MethodDetails.card c.brand c.last4 c.expMonth c.expYear }
        | none => q
    | none => { p with status := PaymentStatus.succeeded }
  (withCharge, [SyncCall.mk p.orderId OrderPaymentStatus.paid])

/-- Whether a payment counts as already existing for an order in the
create-intent uniqueness query (payments.ts lines 111-113): status pending,
processing or succeeded. -/
def PaymentStatus.isActive : PaymentStatus → Bool
  | PaymentStatus.pending => true
  | PaymentStatus.processing => true
  | PaymentStatus.succeeded => true
  | _ => false

/-- The findOne of the uniqueness check: first payment of the order in an
active status. -/
def findActivePayment (ps : List Payment) (orderId : Nat) : Option Payment :=
  ps.find? (fun p => decide (p.orderId = orderId) && p.status.isActive)

/-- Distinct outcomes of the create-intent route. -/
inductive CreateIntentError
  | validationFailed
  | accessDenied
  | conflict
  | gatewayFailure
  deriving DecidableEq, Repr

/-- Create-intent route body after the order ownership check: reject with the
conflict error when an active payment already exists for the order, else
persist a new pending payment row holding the gateway intent id. Returns the
store (unchanged on the failing call) and the outcome. -/
def createIntent (ps : List Payment) (orderId userId : Nat) (amount : Money)
    (newId : Nat) (intentId : String) : List Payment × Except CreateIntentError Payment :=
  match findActivePayment ps orderId with
  | some _ => (ps, Except.error CreateIntentError.conflict)
  | none =>
      let p : Payment :=
        { id := newId
          orderId := orderId
          userId := userId
          stripePaymentIntentId := some intentId
          amount := amount
          status := PaymentStatus.pending }
      (ps ++ [p], Except.ok p)

/-- At most one active payment per order, phrased over consecutive pairs so
that it evaluates on concrete stores: no active payment is followed by
another active payment of the same order. -/
def atMostOneActive : List Payment → Bool
  | [] => true
  | p :: rest =>
      (!p.status.isActive
        || rest.all (fun q => !(decide (q.orderId = p.orderId) && q.status.isActive)))
      && atMostOneActive rest

/-- Confirm applied through the store, as the route does after findOne on the
gateway intent id: the matching row is updated as confirmPayment describes,
every other row is untouched. -/
def confirmInStore (ps : List Payment) (intentId : String) (gw : StripeIntent) :
    List Payment :=
  ps.map (fun p =>
    if p.stripePaymentIntentId = some intentId then (confirmPayment p gw).1 else p)

/-- OrderStatus enum (part_003 lines 4-12). -/
inductive OrderStatus
  | pending
  | confirmed
  | processing
  | shipped
  | delivered
  | cancelled
  | refunded
  deriving DecidableEq, Repr

/-- Shipping / billing address object of the Order model. -/
structure Address where
  firstName : String
  lastName : String
  address : String
  city : String
  state : String
  zipCode : String
  country : String
  phone : Option String := none
  deriving DecidableEq, Repr

/-- Order row (part_003 attributes; the timestamps are omitted, no modelled
operation reads them). -/
structure Order where
  id : Nat
  userId : Nat
  orderNumber : String
  status : OrderStatus
  paymentStatus : OrderPaymentStatus
  totalAmount : Money
  subtotal : Money
  taxAmount : Money
  shippingAmount : Money
  discountAmount : Money
  shippingAddress : Address
  billingAddress : Address
  paymentMethod : String
  notes : Option String := none
  deriving DecidableEq, Repr

/-- Order.calculateTotal (part_003 lines 104-106). -/
def Order.calculateTotal (o : Order) : Money :=
  o.subtotal + o.taxAmount + o.shippingAmount - o.discountAmount

/-- Order.canBeCancelled (part_003 lines 121-123): pending or confirmed. -/
def Order.canBeCancelled (o : Order) : Bool :=
  decide (o.status = OrderStatus.pending ∨ o.status = OrderStatus.confirmed)

/-- Order.canBeRefunded (part_003 lines 126-128): delivered and paid. -/
def Order.canBeRefunded (o : Order) : Bool :=
  decide (o.status = OrderStatus.delivered ∧ o.paymentStatus = OrderPaymentStatus.paid)

/-- Distinct outcomes of the update and cancel routes. -/
inductive UpdateOrderError
  | validationFailed
  | orderNotFound
  | cannotBeCancelled
  deriving DecidableEq, Repr

/-- Body of the PUT update request: each field may be absent (the validator
restricts present status and paymentStatus values to the enums). -/
structure UpdateOrderRequest where
  status : Option OrderStatus := none
  paymentStatus : Option OrderPaymentStatus := none
  notes : Option String := none
  deriving DecidableEq, Repr

/-- Field block of the update route shared by both branches: apply the
requested paymentStatus and notes when present (orders.ts lines 424-430). -/
def applyNonStatusFields (o : Order) (r : UpdateOrderRequest) : Order :=
  let o1 :=
    match r.paymentStatus with
    | some ps => { o with paymentStatus := ps }
    | none => o
  match r.notes with
  | some n => { o1 with notes := some n }
  | none => o1

/-- Update route body after the order row is found (orders.ts lines 416-432):
a requested status of cancelled is rejected when canBeCancelled fails; any
requested status is applied otherwise, then paymentStatus and notes. -/
def updateOrder (o : Order) (r : UpdateOrderRequest) : Except UpdateOrderError Order :=
  match r.status with
  | some s =>
      if s = OrderStatus.cancelled ∧ o.canBeCancelled = false then
        Except.error UpdateOrderError.cannotBeCancelled
      else Except.ok (applyNonStatusFields { o with status := s } r)
  | none => Except.ok (applyNonStatusFields o r)

/-- Cancel route body after the order row is found (orders.ts lines 487-491):
reject when canBeCancelled fails, else updateStatus(CANCELLED). -/
def cancelOrder (o : Order) : Except UpdateOrderError Order :=
  if o.canBeCancelled = false then Except.error UpdateOrderError.cannotBeCancelled
  else Except.ok { o with status := OrderStatus.cancelled }

/-- The saga synchronisation PUT (updateOrderPaymentStatus of the payment
service) as the order service executes it: a generic update request carrying
only the paymentStatus value. -/
def applySyncCall (o : Order) (s : SyncCall) : Except UpdateOrderError Order :=
  updateOrder o { paymentStatus := some s.paymentStatus }

/-- Product snapshot the product service returns for GET /api/products/:id. -/
structure ProductInfo where
  name : String
  sku : String
  images : List String
  deriving DecidableEq, Repr

/-- Responses of the product service for one request: the product fetch and
the stock read, each either a payload or a thrown axios error. -/
structure ProductServiceEnv where
  fetchProduct : Nat → Except String ProductInfo
  fetchStock : Nat → Except String Nat

/-- checkProductStock (orders.ts lines 54-63): available stock at least the
quantity; any collaborator error is caught and returns false. -/
def checkProductStock (env : ProductServiceEnv) (productId quantity : Nat) : Bool :=
  match env.fetchStock productId with
  | Except.ok availableStock => decide (quantity ≤ availableStock)
  | Except.error _ => false

/-- Math.round of JavaScript on the idealised rationals: round half up,
the floor of x + 1/2. -/
def jsMathRound (x : ℚ) : ℤ := ⌊x + 1 / 2⌋

/-- calculateTax (orders.ts lines 66-68): subtotal times the 8 percent rate,
rounded to 2 decimal places via Math.round(x * 100) / 100. -/
def calculateTax (subtotal : Money) (taxRate : Money := 8 / 100) : Money :=
  (jsMathRound (subtotal * taxRate * 100) : ℚ) / 100

/-- calculateShipping (orders.ts lines 71-80): free over 100, else the base
rate 9.99 plus 2.99 for each item beyond the first. -/
def calculateShipping (subtotal : Money) (itemCount : Nat) : Money :=
  if 100 ≤ subtotal then 0
  else 9.99 + ((itemCount - 1 : Nat) : Money) * 2.99

/-- Spec wording of the tax rule: the argument rounded half up to 2 decimal
places (compared against calculateTax, which is translated from the code). -/
def roundHalfUpTo2dp (q : ℚ) : ℚ := ((⌊q * 100 + 1 / 2⌋ : ℤ) : ℚ) / 100

/-- One line of the items array of the create request. -/
structure ItemRequest where
  productId : Nat
  quantity : Nat
  unitPrice : Money
  deriving DecidableEq, Repr

/-- Create request body. -/
structure CreateOrderRequest where
  items : List ItemRequest
  shippingAddress : Address
  billingAddress : Address
  paymentMethod : String
  notes : Option String := none

/-- Validator on an address object: every field but phone non-empty
(createOrderValidation, orders.ts lines 19-32). -/
def addressValid (a : Address) : Bool :=
  !a.firstName.isEmpty && !a.lastName.isEmpty && !a.address.isEmpty
    && !a.city.isEmpty && !a.state.isEmpty && !a.zipCode.isEmpty && !a.country.isEmpty

/-- createOrderValidation (orders.ts lines 14-34): non-empty items with
productId and quantity at least 1 and non-negative unitPrice, both addresses
complete, a payment method. -/
def createOrderRequestValid (req : CreateOrderRequest) : Bool :=
  !req.items.isEmpty
    && req.items.all (fun i =>
        1 ≤ i.productId && 1 ≤ i.quantity && decide ((0 : Money) ≤ i.unitPrice))
    && addressValid req.shippingAddress && addressValid req.billingAddress
    && !req.paymentMethod.isEmpty

/-- A validated item as the creation loop accumulates it (orders.ts lines
156-164). -/
structure ValidatedItem where
  productId : Nat
  productName : String
  productSku : String
  productImage : Option String
  quantity : Nat
  unitPrice : Money
  totalPrice : Money
  deriving DecidableEq, Repr

/-- Distinct outcomes of the create route: the express-validator 400, the
insufficient-stock 400 carrying the product name, and the 500 the outer catch
produces for any thrown error (a failed product fetch among them). -/
inductive CreateOrderError
  | validationFailed
  | insufficientStock (productName : String)
  | serverFailure
  deriving DecidableEq, Repr

/-- The per-item loop of the create route (orders.ts lines 143-165): fetch the
product (a thrown fetch becomes the 500), check stock through
checkProductStock, abort with the insufficient-stock error on the first
failure, else accumulate the validated item and its line total into the
subtotal. -/
def validateItems (env : ProductServiceEnv) :
    List ItemRequest → Except CreateOrderError (List ValidatedItem × Money)
  | [] => Except.ok ([], 0)
  | item :: rest =>
      match env.fetchProduct item.productId with
      | Except.error _ => Except.error CreateOrderError.serverFailure
      | Except.ok product =>
          if !checkProductStock env item.productId item.quantity then
            Except.error (CreateOrderError.insufficientStock product.name)
          else
            let totalPrice : Money := (item.quantity : Money) * item.unitPrice
            match validateItems env rest with
            | Except.error e => Except.error e
            | Except.ok (vs, sub) =>
                Except.ok
                  ({ productId := item.productId
                     productName := product.name
                     productSku := product.sku
                     productImage := product.images.head?
                     quantity := item.quantity
                     unitPrice := item.unitPrice
                     totalPrice := totalPrice } :: vs,
                   totalPrice + sub)

/-- OrderItem row (src/unnamed/part_002). -/
structure OrderItemRow where
  orderId : Nat
  productId : Nat
  productName : String
  productSku : String
  productImage : Option String
  quantity : Nat
  unitPrice : Money
  totalPrice : Money
  deriving DecidableEq, Repr

/-- The order service database: the orders and order_items tables. -/
structure OrderDB where
  orders : List Order
  orderItems : List OrderItemRow
  deriving DecidableEq, Repr

/-- OrderItem.create for one validated item (orders.ts lines 192-199). -/
def itemRowOf (orderId : Nat) (v : ValidatedItem) : OrderItemRow :=
  { orderId := orderId
    productId := v.productId
    productName := v.productName
    productSku := v.productSku
    productImage := v.productImage
    quantity := v.quantity
    unitPrice := v.unitPrice
    totalPrice := v.totalPrice }

/-- Validation plus pricing of the create route, up to the first write: the
express-validator gate, the per-item loop, the amount computations and the
Order.create attribute record (orders.ts lines 129-189). orderId stands for
the autoincrement key, orderNumber for Order.generateOrderNumber(). -/
def createOrderPlan (env : ProductServiceEnv) (orderId userId : Nat)
    (orderNumber : String) (req : CreateOrderRequest) :
    Except CreateOrderError (Order × List ValidatedItem) :=
  if !createOrderRequestValid req then Except.error CreateOrderError.validationFailed
  else
    match validateItems env req.items with
    | Except.error e => Except.error e
    | Except.ok (vs, subtotal) =>
        let taxAmount := calculateTax subtotal
        let shippingAmount := calculateShipping subtotal req.items.length
        let discountAmount : Money := 0
        let totalAmount := subtotal + taxAmount + shippingAmount - discountAmount
        Except.ok
          ({ id := orderId
             userId := userId
             orderNumber := orderNumber
             status := OrderStatus.pending
             paymentStatus := OrderPaymentStatus.pending
             totalAmount := totalAmount
             subtotal := subtotal
             taxAmount := taxAmount
             shippingAmount := shippingAmount
             discountAmount := discountAmount
             shippingAddress := req.shippingAddress
             billingAddress := req.billingAddress
             paymentMethod := req.paymentMethod
             notes := req.notes }, vs)

/-- The row writes the create route awaits one after the other, with no
surrounding transaction: Order.create first, then one OrderItem.create per
item (orders.ts lines 175-199). -/
def createOrderWrites (row : Order) (vs : List ValidatedItem) : List (OrderDB → OrderDB) :=
  (fun db => { db with orders := db.orders ++ [row] })
    :: vs.map (fun v => fun db => { db with orderItems := db.orderItems ++ [itemRowOf row.id v] })

/-- Execute a list of row writes in order. -/
def runWrites (db : OrderDB) (ws : List (OrderDB → OrderDB)) : OrderDB :=
  ws.foldl (fun d w => w d) db

/-- The create route run to completion: plan, then all writes. Returns the
database (unchanged on a failed plan) and the outcome. -/
def createOrder (env : ProductServiceEnv) (db : OrderDB) (orderId userId : Nat)
    (orderNumber : String) (req : CreateOrderRequest) :
    OrderDB × Except CreateOrderError Order :=
  match createOrderPlan env orderId userId orderNumber req with
  | Except.error e => (db, Except.error e)
  | Except.ok (row, vs) => (runWrites db (createOrderWrites row vs), Except.ok row)

/-- The create route interrupted after k of its awaited writes have committed
(each write is a separate statement, so an exception or crash between two of
them leaves the earlier ones durably applied). -/
def createOrderInterrupted (env : ProductServiceEnv) (db : OrderDB)
    (orderId userId : Nat) (orderNumber : String) (req : CreateOrderRequest)
    (k : Nat) : OrderDB :=
  match createOrderPlan env orderId userId orderNumber req with
  | Except.error _ => db
  | Except.ok (row, vs) => runWrites db ((createOrderWrites row vs).take k)

/-- Whether an order row with the given id is observable in the store. -/
def hasOrderRow (db : OrderDB) (orderId : Nat) : Bool :=
  db.orders.any (fun o => decide (o.id = orderId))

/-- The line-item rows of one order observable in the store. -/
def itemRowsOf (db : OrderDB) (orderId : Nat) : List OrderItemRow :=
  db.orderItems.filter (fun it => decide (it.orderId = orderId))

/-- Sample payment carrying a card snapshot from an earlier succeeded
confirmation. -/
def paymentWithCard : Payment :=
  { id := 3, orderId := 5, userId := 7
    stripePaymentIntentId := some "pi_10"
    stripeChargeId := some "ch_10"
    amount := 50
    status := PaymentStatus.succeeded
    paymentMethodDetails := MethodDetails.card "visa" "4242" 12 2030 }

/-- Gateway re-reporting the intent as processing. -/
def gwProcessing : StripeIntent :=
  { id := "pi_10", status := StripeIntentStatus.processing, charge := none
    lastPaymentErrorMessage := none }

/-- A payment after one partial refund: 4 of 10 refunded, status
partially refunded, balance 6 outstanding. -/
def partiallyRefundedPayment : Payment :=
  { id := 9, orderId := 2, userId := 7
    stripeChargeId := some "ch_9"
    amount := 10
    status := PaymentStatus.partiallyRefunded
    refundedAmount := 4 }

/-- Sample address passing the validator. -/
def sampleAddress : Address :=
  { firstName := "A", lastName := "B", address := "1 Main St", city := "Springfield"
    state := "IL", zipCode := "62701", country := "US" }

/-- A delivered (terminal) order. -/
def deliveredOrder : Order :=
  { id := 11, userId := 7, orderNumber := "ORD-11"
    status := OrderStatus.delivered, paymentStatus := OrderPaymentStatus.paid
    totalAmount := 108, subtotal := 100, taxAmount := 8, shippingAmount := 0
    discountAmount := 0, shippingAddress := sampleAddress
    billingAddress := sampleAddress, paymentMethod := "card" }

/-- An already cancelled order. -/
def cancelledOrder : Order :=
  { deliveredOrder with
    id := 12
    orderNumber := "ORD-12"
    status := OrderStatus.cancelled
    paymentStatus := OrderPaymentStatus.pending }

/-- A payment of 10, fully unrefunded, in the succeeded status. -/
def succeededPayment10 : Payment :=
  { id := 21, orderId := 3, userId := 7
    stripeChargeId := some "ch_21"
    amount := 10
    status := PaymentStatus.succeeded }

/-- succeededPayment10 after a partial refund of 4. -/
def partialAfter4 : Payment :=
  { succeededPayment10 with
    refundedAmount := 4
    status := PaymentStatus.partiallyRefunded }

/-- A pending payment for order 1 already in the store. -/
def pendingPaymentOrder1 : Payment :=
  { id := 1, orderId := 1, userId := 7
    stripePaymentIntentId := some "pi_1"
    amount := 50
    status := PaymentStatus.pending }

/-- Gateway answer declining the first intent. -/
def gwDeclined : StripeIntent :=
  { id := "pi_1", status := StripeIntentStatus.other "requires_capture"
    charge := none, lastPaymentErrorMessage := some "The payment was declined." }

/-- Gateway answer later reporting the same first intent as succeeded. -/
def gwLateSuccess : StripeIntent :=
  { id := "pi_1", status := StripeIntentStatus.succeeded
    charge := some { id := "ch_1", card := none }, lastPaymentErrorMessage := none }

/-- Store after creating the first intent for order 1. -/
def c3store1 : List Payment := (createIntent [] 1 7 50 1 "pi_1").1

/-- Store after the gateway declines the first intent on confirm. -/
def c3store2 : List Payment := confirmInStore c3store1 "pi_1" gwDeclined

/-- Store after a second intent is created for order 1 (allowed: the first
payment is in the failed status). -/
def c3store3 : List Payment := (createIntent c3store2 1 7 50 2 "pi_2").1

/-- Store after the gateway re-reports the first intent as succeeded. -/
def c3store4 : List Payment := confirmInStore c3store3 "pi_1" gwLateSuccess

/-- A pending payment about to be confirmed. -/
def pendingPaymentC7 : Payment :=
  { id := 31, orderId := 4, userId := 7
    stripePaymentIntentId := some "pi_31"
    amount := 75
    status := PaymentStatus.pending }

/-- Gateway reporting intent pi_31 succeeded with a captured card charge. -/
def gwChargedC7 : StripeIntent :=
  { id := "pi_31", status := StripeIntentStatus.succeeded
    charge := some { id := "ch_31"
                     card := some { brand := "visa", last4 := "4242"
                                    expMonth := 11, expYear := 2031 } }
    lastPaymentErrorMessage := none }

/-- An empty order store. -/
def emptyOrderDB : OrderDB := { orders := [], orderItems := [] }

/-- Product collaborator for the pricing scenario: two products, both in
stock. -/
def scenarioEnv : ProductServiceEnv :=
  { fetchProduct := fun pid =>
      if pid = 1 then Except.ok { name := "Laptop", sku := "SKU-1", images := ["a.png"] }
      else if pid = 2 then Except.ok { name := "Headphones", sku := "SKU-2", images := [] }
      else Except.error "not found"
    fetchStock := fun pid =>
      if pid = 1 then Except.ok 5
      else if pid = 2 then Except.ok 9
      else Except.error "not found" }

/-- The spec scenario request: 999.99 twice and 299.99 once. -/
def scenarioReq : CreateOrderRequest :=
  { items := [{ productId := 1, quantity := 2, unitPrice := 999.99 },
              { productId := 2, quantity := 1, unitPrice := 299.99 }]
    shippingAddress := sampleAddress
    billingAddress := sampleAddress
    paymentMethod := "card" }

/-- Product collaborator whose stock endpoint times out for product 2. -/
def failingStockEnv : ProductServiceEnv :=
  { fetchProduct := fun pid =>
      if pid = 1 then Except.ok { name := "Widget", sku := "W-1", images := [] }
      else if pid = 2 then Except.ok { name := "Gadget", sku := "G-2", images := [] }
      else Except.error "not found"
    fetchStock := fun pid =>
      if pid = 1 then Except.ok 10 else Except.error "connect ETIMEDOUT" }

/-- A two-item request whose second item hits the timing-out stock read. -/
def failingStockReq : CreateOrderRequest :=
  { items := [{ productId := 1, quantity := 1, unitPrice := 10 },
              { productId := 2, quantity := 3, unitPrice := 20 }]
    shippingAddress := sampleAddress
    billingAddress := sampleAddress
    paymentMethod := "card" }

/-- Product collaborator with everything in stock. -/
def alwaysStockedEnv : ProductServiceEnv :=
  { fetchProduct := fun _ => Except.ok { name := "Widget", sku := "W-1", images := [] }
    fetchStock := fun _ => Except.ok 10 }

/-- A valid one-item request. -/
def oneItemReq : CreateOrderRequest :=
  { items := [{ productId := 1, quantity := 1, unitPrice := 5 }]
    shippingAddress := sampleAddress
    billingAddress := sampleAddress
    paymentMethod := "card" }

/-- A request failing the validator: an empty items array. -/
def invalidReq : CreateOrderRequest :=
  { items := []
    shippingAddress := sampleAddress
    billingAddress := sampleAddress
    paymentMethod := "card" }

/-- C10: for every confirm call in which the re-fetched gateway intent status
is anything other than succeeded, the stored paymentMethodDetails field is
overwritten with the empty object, erasing any previously snapshotted card
details. -/
theorem non_succeeded_confirm_erases_method_details (p : Payment) (gw : StripeIntent)
    (h : gw.status ≠ StripeIntentStatus.succeeded) :
    (confirmPayment p gw).1.paymentMethodDetails = MethodDetails.emptyObject := by
  unfold confirmPayment
  cases hgw : gw.status <;> simp [hgw] at h ⊢

/-- C10 witness: a processing re-fetch erases the card snapshot of
paymentWithCard. -/
theorem method_details_erased_witness :
    gwProcessing.status ≠ StripeIntentStatus.succeeded ∧
      paymentWithCard.paymentMethodDetails = MethodDetails.card "visa" "4242" 12 2030 ∧
      (confirmPayment paymentWithCard gwProcessing).1.paymentMethodDetails
        = MethodDetails.emptyObject :=
  ⟨by decide, rfl,
    non_succeeded_confirm_erases_method_details paymentWithCard gwProcessing (by decide)⟩

/-- C9: the code's canBeRefunded never holds in the partially refunded
status, although a refundable balance remains, so the refund route rejects
the payment — against the spec, which admits partially refunded payments. -/
theorem can_be_refunded_excludes_partially_refunded :
    partiallyRefundedPayment.status = PaymentStatus.partiallyRefunded ∧
      partiallyRefundedPayment.refundedAmount < partiallyRefundedPayment.amount ∧
      partiallyRefundedPayment.canBeRefunded = false ∧
      refundPayment partiallyRefundedPayment (some 1) true
        = Except.error RefundError.cannotBeRefunded := by
  refine ⟨rfl, by norm_num [partiallyRefundedPayment], ?_, ?_⟩
  · simp [Payment.canBeRefunded, partiallyRefundedPayment]
  · simp [refundPayment, refundRequestValid, Payment.canBeRefunded, partiallyRefundedPayment]
    norm_num

/-- C4 counterexample: the generic update moves a delivered order back to
pending — a transition out of a terminal state, outside the allowed edge
set, accepted with no error. -/
theorem generic_update_accepts_transition_out_of_delivered :
    deliveredOrder.status = OrderStatus.delivered ∧
      updateOrder deliveredOrder { status := some OrderStatus.pending }
        = Except.ok { deliveredOrder with status := OrderStatus.pending } := by
  constructor
  · rfl
  · simp [updateOrder, applyNonStatusFields, Order.canBeCancelled, deliveredOrder]

/-- C4 as amended: the cancel route and a cancellation through the generic
update are rejected whenever canBeCancelled fails — cancelling an already
cancelled order among them — leaving the row unchanged; but every requested
status other than cancelled is applied by the generic update with no
transition check at all. -/
theorem cancel_guard_and_unchecked_update_transitions (o : Order) (r : UpdateOrderRequest) :
    (o.canBeCancelled = false →
      cancelOrder o = Except.error UpdateOrderError.cannotBeCancelled ∧
        (r.status = some OrderStatus.cancelled →
          updateOrder o r = Except.error UpdateOrderError.cannotBeCancelled)) ∧
    (o.status = OrderStatus.cancelled →
      cancelOrder o = Except.error UpdateOrderError.cannotBeCancelled) ∧
    (∀ s, r.status = some s → s ≠ OrderStatus.cancelled →
      ∃ o', updateOrder o r = Except.ok o' ∧ o'.status = s) := by
  refine ⟨fun hc => ⟨by simp [cancelOrder, hc], fun hs => by simp [updateOrder, hs, hc]⟩,
    fun hst => by simp [cancelOrder, Order.canBeCancelled, hst], fun s hs hne => ?_⟩
  refine ⟨applyNonStatusFields { o with status := s } r, by simp [updateOrder, hs, hne], ?_⟩
  simp [applyNonStatusFields]
  cases r.paymentStatus <;> cases r.notes <;> simp

/-- C4 witness: cancelling the already cancelled order fails through both
routes, and the generic update applies a shipped status to it unchecked. -/
theorem cancel_guard_witness :
    (cancelOrder cancelledOrder = Except.error UpdateOrderError.cannotBeCancelled ∧
      (updateOrder cancelledOrder { status := some OrderStatus.cancelled }
        = Except.error UpdateOrderError.cannotBeCancelled)) ∧
    (∃ o', updateOrder cancelledOrder { status := some OrderStatus.shipped }
        = Except.ok o' ∧ o'.status = OrderStatus.shipped) := by
  have h1 := cancel_guard_and_unchecked_update_transitions cancelledOrder
    { status := some OrderStatus.cancelled }
  have h2 := cancel_guard_and_unchecked_update_transitions cancelledOrder
    { status := some OrderStatus.shipped }
  exact ⟨⟨(h1.1 (by decide)).1, (h1.1 (by decide)).2 rfl⟩,
    h2.2.2 OrderStatus.shipped rfl (by decide)⟩

/-- C5 counterexample: the generic update, given a request carrying a
paymentStatus value, writes it to the order directly. -/
theorem generic_update_changes_payment_status :
    cancelledOrder.paymentStatus = OrderPaymentStatus.pending ∧
      updateOrder cancelledOrder { paymentStatus := some OrderPaymentStatus.paid }
        = Except.ok { cancelledOrder with paymentStatus := OrderPaymentStatus.paid } := by
  constructor
  · rfl
  · simp [updateOrder, applyNonStatusFields]

/-- Field frame of applyNonStatusFields: paymentStatus becomes the requested
value when present, is kept otherwise. -/
theorem applyNonStatusFields_paymentStatus (o : Order) (r : UpdateOrderRequest) :
    (applyNonStatusFields o r).paymentStatus = r.paymentStatus.getD o.paymentStatus := by
  unfold applyNonStatusFields
  cases r.paymentStatus <;> cases r.notes <;> simp

/-- applyNonStatusFields never touches the status field. -/
theorem applyNonStatusFields_status (o : Order) (r : UpdateOrderRequest) :
    (applyNonStatusFields o r).status = o.status := by
  unfold applyNonStatusFields
  cases r.paymentStatus <;> cases r.notes <;> simp

/-- Field frame of applyNonStatusFields on notes. -/
theorem applyNonStatusFields_notes (o : Order) (r : UpdateOrderRequest) :
    (applyNonStatusFields o r).notes = match r.notes with
      | some n => some n
      | none => o.notes := by
  unfold applyNonStatusFields
  cases r.paymentStatus <;> cases r.notes <;> simp

/-- C5 as amended: every successful generic update leaves paymentStatus at
the request's value when the request carries one and at the old value
otherwise — and this very operation is what the payment service's
coordinator helper issues as its synchronisation call. -/
theorem payment_status_frame_of_generic_update (o : Order) (r : UpdateOrderRequest) :
    (∀ o', updateOrder o r = Except.ok o' →
      o'.paymentStatus = r.paymentStatus.getD o.paymentStatus) ∧
    (∀ s : SyncCall, ∃ o', applySyncCall o s = Except.ok o' ∧
      o'.paymentStatus = s.paymentStatus ∧ o'.status = o.status ∧ o'.notes = o.notes) := by
  constructor
  · intro o' h
    cases hs : r.status with
    | none =>
        simp only [updateOrder, hs, Except.ok.injEq] at h
        rw [← h, applyNonStatusFields_paymentStatus]
    | some s =>
        by_cases hc : s = OrderStatus.cancelled ∧ o.canBeCancelled = false
        · simp only [updateOrder, hs, if_pos hc] at h
          exact absurd h (by simp)
        · simp only [updateOrder, hs, if_neg hc, Except.ok.injEq] at h
          rw [← h, applyNonStatusFields_paymentStatus]
  · intro s
    refine ⟨applyNonStatusFields o { paymentStatus := some s.paymentStatus }, ?_, ?_, ?_, ?_⟩
    · simp only [applySyncCall, updateOrder]
    · rw [applyNonStatusFields_paymentStatus]
      rfl
    · rw [applyNonStatusFields_status]
    · rw [applyNonStatusFields_notes]

/-- C5 witness: the coordinator's paid synchronisation call on the delivered
order goes through the generic update and lands on paymentStatus paid. -/
theorem payment_status_frame_witness :
    ∃ o', applySyncCall deliveredOrder (SyncCall.mk 11 OrderPaymentStatus.paid)
        = Except.ok o' ∧
      o'.paymentStatus = OrderPaymentStatus.paid ∧
      o'.status = deliveredOrder.status ∧ o'.notes = deliveredOrder.notes :=
  (payment_status_frame_of_generic_update deliveredOrder {}).2
    (SyncCall.mk 11 OrderPaymentStatus.paid)

/-- A successful refund keeps refundedAmount within [0, amount]: the route
only reaches addRefund when canBeRefunded holds and the amount is at most
the remaining balance. -/
theorem refundPayment_ok_invariant (p : Payment) (a : Option Money) (g : Bool)
    (p' : Payment) (r : Money) (hinv : refundInvariant p)
    (h : refundPayment p a g = Except.ok (p', r)) : refundInvariant p' := by
  unfold refundPayment Payment.getRemainingRefundableAmount at h
  by_cases hv : refundRequestValid a = true
  swap
  · simp [hv] at h
  by_cases hc : p.canBeRefunded = true
  swap
  · simp [hv, hc] at h
  by_cases hlt : p.amount - p.refundedAmount < a.getD (p.amount - p.refundedAmount)
  · simp [hv, hc, hlt] at h
  by_cases hg : g = true
  swap
  · simp [hv, hc, hlt, hg] at h
  simp only [hv, hc, hlt, hg, Bool.not_true, Bool.false_eq_true, if_false,
    Bool.not_false, if_true, Except.ok.injEq, Prod.mk.injEq] at h
  have hcr : p.status = PaymentStatus.succeeded ∧ p.refundedAmount < p.amount := by
    have hc' := hc
    unfold Payment.canBeRefunded at hc'
    exact of_decide_eq_true hc'
  have hra : (0 : Money) ≤ a.getD (p.amount - p.refundedAmount) := by
    cases a with
    | none =>
        rw [Option.getD_none]
        linarith [hcr.2]
    | some x =>
        unfold refundRequestValid at hv
        have hx := of_decide_eq_true hv
        rw [Option.getD_some]
        linarith
  have hub : a.getD (p.amount - p.refundedAmount) ≤ p.amount - p.refundedAmount :=
    not_lt.mp hlt
  rcases h with ⟨hp', -⟩
  rw [← hp']
  unfold Payment.addRefund refundInvariant
  constructor
  · simp only
    linarith [hinv.1]
  · simp only
    linarith [hinv.2]

/-- Unfolding applyRefunds over the first request. -/
theorem applyRefunds_cons (p : Payment) (r : Option Money × Bool)
    (rest : List (Option Money × Bool)) :
    applyRefunds p (r :: rest)
      = applyRefunds
          (match refundPayment p r.1 r.2 with
            | Except.ok (q', _) => q'
            | Except.error _ => p) rest := rfl

/-- C2 as amended: through any sequence of refund requests the invariant
0 ≤ refundedAmount ≤ amount is maintained (failing requests leave the row as
it was); a request above the remaining balance fails with the
exceeds-remaining error while the payment still passes canBeRefunded, but on
a partially refunded payment every request fails earlier, with the
cannot-be-refunded error. -/
theorem refund_invariant_and_rejection_errors (p : Payment) (hinv : refundInvariant p) :
    (∀ reqs, refundInvariant (applyRefunds p reqs)) ∧
    (∀ a g, refundRequestValid (some a) = true →
      p.status = PaymentStatus.succeeded → p.refundedAmount < p.amount →
      p.getRemainingRefundableAmount < a →
      refundPayment p (some a) g = Except.error RefundError.exceedsRemaining) ∧
    (∀ a g, refundRequestValid a = true →
      p.status = PaymentStatus.partiallyRefunded →
      refundPayment p a g = Except.error RefundError.cannotBeRefunded) ∧
    (∀ a g e, refundPayment p a g = Except.error e → applyRefunds p [(a, g)] = p) := by
  refine ⟨?_, ?_, ?_, ?_⟩
  · intro reqs
    induction reqs generalizing p hinv with
    | nil => exact hinv
    | cons r rest ih =>
        rw [applyRefunds_cons]
        cases hr : refundPayment p r.1 r.2 with
        | ok pr =>
            exact ih _ (refundPayment_ok_invariant p r.1 r.2 pr.1 pr.2 hinv (by rw [hr]))
        | error e => exact ih p hinv
  · intro a g hv hst hlt hex
    have hc : p.canBeRefunded = true := by
      unfold Payment.canBeRefunded
      exact decide_eq_true ⟨hst, hlt⟩
    unfold refundPayment
    simp [hv, hc, Option.getD, hex]
  · intro a g hv hst
    have hc : p.canBeRefunded = false := by
      unfold Payment.canBeRefunded
      simp [hst]
    unfold refundPayment
    simp [hv, hc]
  · intro a g e h
    simp [applyRefunds, h]

/-- C2 counterexample: after a partial refund of 4 out of 10, a request of
100 — far above the remaining balance of 6 — is rejected with the
cannot-be-refunded error, not the exceeds-remaining error the claim names,
because canBeRefunded never holds in the partially refunded status. -/
theorem refund_on_partially_refunded_rejected_with_cannot_refund :
    refundPayment succeededPayment10 (some 4) true = Except.ok (partialAfter4, 4) ∧
    partialAfter4.getRemainingRefundableAmount = 6 ∧
    refundPayment partialAfter4 (some 100) true
      = Except.error RefundError.cannotBeRefunded ∧
    RefundError.cannotBeRefunded ≠ RefundError.exceedsRemaining := by
  refine ⟨?_, ?_, ?_, by decide⟩
  · norm_num [refundPayment, refundRequestValid, Payment.canBeRefunded,
      Payment.getRemainingRefundableAmount, Payment.addRefund, succeededPayment10,
      partialAfter4]
  · norm_num [Payment.getRemainingRefundableAmount, partialAfter4, succeededPayment10]
  · norm_num [refundPayment, refundRequestValid, Payment.canBeRefunded,
      partialAfter4, succeededPayment10]
    intro hcontra
    exact absurd hcontra (by decide)

/-- C2 witness: starting from the succeeded payment of 10, a partial refund
of 4 followed by a full-balance refund maintains the invariant. -/
theorem refund_invariant_witness :
    refundInvariant (applyRefunds succeededPayment10 [(some 4, true), (none, true)]) :=
  (refund_invariant_and_rejection_errors succeededPayment10
    (by constructor <;> norm_num [succeededPayment10])).1 [(some 4, true), (none, true)]

/-- Appending a payment whose order has no active payment in the store keeps
the pairwise at-most-one-active property. -/
theorem atMostOneActive_append (ps : List Payment) (np : Payment)
    (hnone : ∀ q ∈ ps, ¬(q.orderId = np.orderId ∧ q.status.isActive = true))
    (h : atMostOneActive ps = true) : atMostOneActive (ps ++ [np]) = true := by
  induction ps with
  | nil => simp [atMostOneActive]
  | cons p rest ih =>
      simp only [List.cons_append, atMostOneActive, Bool.and_eq_true] at h ⊢
      obtain ⟨h1, h2⟩ := h
      refine ⟨?_, ih (fun q hq => hnone q (List.mem_cons_of_mem p hq)) h2⟩
      cases hact : p.status.isActive with
      | false => simp
      | true =>
          have hrest : rest.all
              (fun q => !(decide (q.orderId = p.orderId) && q.status.isActive)) = true := by
            simpa [hact] using h1
          have hp := hnone p (List.mem_cons_self p rest)
          have hneq : ¬np.orderId = p.orderId := by
            intro he
            exact hp ⟨he.symm, hact⟩
          simp [List.all_append, hact, hneq]
          intro x hx
          simpa using List.all_eq_true.mp hrest x hx

/-- C3 as amended: when the order already has a payment in an active status
(pending, processing or succeeded), create-intent fails with the conflict
error and returns the store unchanged — the existing payment untouched — and
a create-intent call never breaks the at-most-one-active property of the
store. -/
theorem create_intent_conflict_and_preserves_invariant (ps : List Payment)
    (orderId userId : Nat) (amount : Money) (newId : Nat) (intentId : String) :
    (∀ q ∈ ps, q.orderId = orderId → q.status.isActive = true →
      createIntent ps orderId userId amount newId intentId
        = (ps, Except.error CreateIntentError.conflict)) ∧
    (atMostOneActive ps = true →
      atMostOneActive (createIntent ps orderId userId amount newId intentId).1 = true) := by
  constructor
  · intro q hq hqo hqa
    have hsome : (findActivePayment ps orderId).isSome := by
      unfold findActivePayment
      rw [List.find?_isSome]
      exact ⟨q, hq, by simp [hqo, hqa]⟩
    obtain ⟨y, hy⟩ := Option.isSome_iff_exists.mp hsome
    unfold createIntent
    rw [hy]
  · intro h
    cases hfind : findActivePayment ps orderId with
    | some y =>
        unfold createIntent
        rw [hfind]
        exact h
    | none =>
        unfold createIntent
        rw [hfind]
        refine atMostOneActive_append ps _ ?_ h
        intro q hq hqc
        have hall := List.find?_eq_none.mp hfind q hq
        simp only [Bool.and_eq_true, decide_eq_true_eq] at hall
        exact hall ⟨hqc.1, hqc.2⟩

/-- C3 witness: a second create-intent for order 1 hits the conflict error
and the store still holds exactly the first payment. -/
theorem create_intent_conflict_witness :
    createIntent [pendingPaymentOrder1] 1 7 50 2 "pi_2"
      = ([pendingPaymentOrder1], Except.error CreateIntentError.conflict) :=
  (create_intent_conflict_and_preserves_invariant
      [pendingPaymentOrder1] 1 7 50 2 "pi_2").1
    pendingPaymentOrder1 (List.mem_singleton.mpr rfl) rfl rfl

/-- C3 counterexample: create intent, confirm it failed, create a
replacement intent, then confirm the first intent succeeded after all — the
store ends with two payments of order 1 in active statuses, so the
at-most-one-active property does not hold at all times. -/
theorem two_active_payments_reachable_via_confirm_after_failed :
    atMostOneActive c3store3 = true ∧
    (createIntent c3store2 1 7 50 2 "pi_2").2.isOk = true ∧
    atMostOneActive c3store4 = false ∧
    (c3store4.filter
      (fun p => decide (p.orderId = 1) && p.status.isActive)).length = 2 := by
  refine ⟨?_, ?_, ?_, ?_⟩ <;>
    simp [c3store4, c3store3, c3store2, c3store1, createIntent, confirmInStore,
      findActivePayment, confirmPayment, gwDeclined, gwLateSuccess, atMostOneActive,
      PaymentStatus.isActive, pendingPaymentOrder1, Except.isOk, Except.toBool]

/-- C7 as amended: a second confirm with the same re-fetched intent leaves
the payment row exactly as the first left it and issues the same
synchronisation calls again (nothing suppresses the repeat), and likewise
for a replayed succeeded webhook; a confirm whose intent reports succeeded
always ends in the succeeded status with one order-paid sync call. -/
theorem confirm_and_webhook_idempotent_in_state (p : Payment) (gw : StripeIntent) :
    (confirmPayment (confirmPayment p gw).1 gw).1 = (confirmPayment p gw).1 ∧
    (confirmPayment (confirmPayment p gw).1 gw).2 = (confirmPayment p gw).2 ∧
    (handleIntentSucceeded (handleIntentSucceeded p gw).1 gw).1
      = (handleIntentSucceeded p gw).1 ∧
    (handleIntentSucceeded (handleIntentSucceeded p gw).1 gw).2
      = (handleIntentSucceeded p gw).2 ∧
    (gw.status = StripeIntentStatus.succeeded →
      (confirmPayment p gw).1.status = PaymentStatus.succeeded ∧
      (confirmPayment p gw).2 = [SyncCall.mk p.orderId OrderPaymentStatus.paid]) := by
  obtain ⟨gid, gst, gch, gerr⟩ := gw
  cases gst <;>
    rcases gch with _ | ⟨cid, _ | c⟩ <;>
      simp [confirmPayment, handleIntentSucceeded]

/-- C7 counterexample: the second confirm of the already succeeded payment
issues the order-paid synchronisation call again — the side effect is
re-applied, not suppressed — and a replayed succeeded webhook does the
same. -/
theorem second_confirm_reissues_order_paid_sync :
    (confirmPayment pendingPaymentC7 gwChargedC7).1.status = PaymentStatus.succeeded ∧
    (confirmPayment (confirmPayment pendingPaymentC7 gwChargedC7).1 gwChargedC7).2
      = [SyncCall.mk 4 OrderPaymentStatus.paid] ∧
    (confirmPayment (confirmPayment pendingPaymentC7 gwChargedC7).1 gwChargedC7).2
      ≠ ([] : List SyncCall) ∧
    (handleIntentSucceeded (handleIntentSucceeded pendingPaymentC7 gwChargedC7).1
      gwChargedC7).2 = [SyncCall.mk 4 OrderPaymentStatus.paid] := by
  refine ⟨?_, ?_, ?_, ?_⟩ <;>
    simp [confirmPayment, handleIntentSucceeded, pendingPaymentC7, gwChargedC7]

/-- C7 witness: at the concrete succeeded intent, the double confirm ends in
the same state as the single one and the succeeded confirm reports the
order-paid sync. -/
theorem confirm_idempotence_witness :
    (confirmPayment (confirmPayment pendingPaymentC7 gwChargedC7).1 gwChargedC7).1
      = (confirmPayment pendingPaymentC7 gwChargedC7).1 ∧
    (confirmPayment pendingPaymentC7 gwChargedC7).1.status = PaymentStatus.succeeded ∧
    (confirmPayment pendingPaymentC7 gwChargedC7).2
      = [SyncCall.mk pendingPaymentC7.orderId OrderPaymentStatus.paid] := by
  have h := confirm_and_webhook_idempotent_in_state pendingPaymentC7 gwChargedC7
  exact ⟨h.1, (h.2.2.2.2 rfl).1, (h.2.2.2.2 rfl).2⟩

/-- The subtotal the per-item loop accumulates is exactly the sum of
quantity times unit price over the request items, and the loop keeps one
validated item per request item, in order. -/
theorem validateItems_ok_subtotal (env : ProductServiceEnv) (items : List ItemRequest)
    (vs : List ValidatedItem) (s : Money)
    (h : validateItems env items = Except.ok (vs, s)) :
    s = (items.map (fun i => (i.quantity : Money) * i.unitPrice)).sum
      ∧ vs.length = items.length := by
  induction items generalizing vs s with
  | nil =>
      unfold validateItems at h
      simp only [Except.ok.injEq, Prod.mk.injEq] at h
      simp [← h.1, ← h.2]
  | cons item rest ih =>
      unfold validateItems at h
      cases hf : env.fetchProduct item.productId with
      | error e => simp [hf] at h
      | ok product =>
          rw [hf] at h
          by_cases hstock : checkProductStock env item.productId item.quantity = true
          swap
          · simp [hstock] at h
          simp only [hstock, Bool.not_true, Bool.false_eq_true, if_false] at h
          cases hrec : validateItems env rest with
          | error e => simp [hrec] at h
          | ok pair =>
              rw [hrec] at h
              simp only [Except.ok.injEq, Prod.mk.injEq] at h
              obtain ⟨hs, hsum⟩ := ih pair.1 pair.2 (by rw [hrec])
              constructor
              · rw [← h.2, List.map_cons, List.sum_cons, hs]
              · rw [← h.1]
                simp [hsum]

/-- C6: for every request passing the validator whose per-item loop
succeeds, the created order prices as the spec states: subtotal is exactly
the sum of quantity times unit price, tax is the subtotal at the fixed 8
percent rate rounded half up to 2 decimal places, shipping is free from a
subtotal of 100 and otherwise 9.99 plus 2.99 per item beyond the first,
discount is 0, and the total is subtotal + tax + shipping - discount. -/
theorem order_pricing_formulas_and_scenario (env : ProductServiceEnv) (db : OrderDB)
    (orderId userId : Nat) (orderNumber : String) (req : CreateOrderRequest)
    (hval : createOrderRequestValid req = true)
    (hok : (validateItems env req.items).isOk = true) :
    ∃ row, (createOrder env db orderId userId orderNumber req).2 = Except.ok row ∧
      row.subtotal = (req.items.map (fun i => (i.quantity : Money) * i.unitPrice)).sum ∧
      row.taxAmount = roundHalfUpTo2dp (row.subtotal * (8 / 100)) ∧
      row.shippingAmount = (if 100 ≤ row.subtotal then 0
        else 9.99 + ((req.items.length - 1 : Nat) : Money) * 2.99) ∧
      row.discountAmount = 0 ∧
      row.totalAmount
        = row.subtotal + row.taxAmount + row.shippingAmount - row.discountAmount ∧
      row.status = OrderStatus.pending := by
  cases hv : validateItems env req.items with
  | error e => rw [hv] at hok; simp [Except.isOk, Except.toBool] at hok
  | ok pair =>
      obtain ⟨vs, s⟩ := pair
      obtain ⟨hs, -⟩ := validateItems_ok_subtotal env req.items vs s hv
      refine ⟨{ id := orderId
                userId := userId
                orderNumber := orderNumber
                status := OrderStatus.pending
                paymentStatus := OrderPaymentStatus.pending
                totalAmount := s + calculateTax s + calculateShipping s req.items.length - 0
                subtotal := s
                taxAmount := calculateTax s
                shippingAmount := calculateShipping s req.items.length
                discountAmount := 0
                shippingAddress := req.shippingAddress
                billingAddress := req.billingAddress
                paymentMethod := req.paymentMethod
                notes := req.notes }, ?_, ?_, ?_, ?_, ?_, ?_, ?_⟩
      · simp [createOrder, createOrderPlan, hval, hv]
      · exact hs
      · rfl
      · rfl
      · rfl
      · rfl
      · rfl

/-- C6 witness: at the scenario input the created order carries subtotal
2299.97, tax 184.00, shipping 0 and total 2483.97. -/
theorem order_pricing_witness :
    ∃ row, (createOrder scenarioEnv emptyOrderDB 1 7 "ORD-1001" scenarioReq).2
        = Except.ok row ∧
      row.subtotal = 2299.97 ∧ row.taxAmount = 184 ∧ row.shippingAmount = 0 ∧
      row.discountAmount = 0 ∧ row.totalAmount = 2483.97 ∧
      row.status = OrderStatus.pending := by
  have hval : createOrderRequestValid scenarioReq = true := by
    norm_num [createOrderRequestValid, scenarioReq, addressValid, sampleAddress]
    refine ⟨⟨⟨⟨⟨⟨⟨?_, ?_⟩, ?_⟩, ?_⟩, ?_⟩, ?_⟩, ?_⟩, ?_⟩ <;> decide
  have hok : (validateItems scenarioEnv scenarioReq.items).isOk = true := by
    simp [validateItems, checkProductStock, scenarioEnv, scenarioReq,
      Except.isOk, Except.toBool]
  obtain ⟨row, h1, h2, h3, h4, h5, h6, h7⟩ :=
    order_pricing_formulas_and_scenario scenarioEnv emptyOrderDB 1 7 "ORD-1001"
      scenarioReq hval hok
  have hsub : row.subtotal = 2299.97 := by
    rw [h2]
    norm_num [scenarioReq]
  have hfl : (⌊(2299.97 : ℚ) * (8 / 100) * 100 + 1 / 2⌋ : ℤ) = 18400 := by
    norm_num [Int.floor_eq_iff]
  have htax : row.taxAmount = 184 := by
    rw [h3, hsub]
    simp only [roundHalfUpTo2dp, hfl]
    norm_num
  have hship : row.shippingAmount = 0 := by
    rw [h4, hsub]
    norm_num
  have htot : row.totalAmount = 2483.97 := by
    rw [h6, hsub, htax, hship, h5]
    norm_num
  exact ⟨row, h1, hsub, htax, hship, h5, htot, h7⟩

/-- When every earlier item fetches and passes its stock check and the stock
read of the next item errs, the per-item loop stops with the
insufficient-stock error of that item. -/
theorem validateItems_first_stock_error (env : ProductServiceEnv)
    (pre rest : List ItemRequest) (bad : ItemRequest) (product : ProductInfo) (e : String)
    (hpre : ∀ i ∈ pre, (env.fetchProduct i.productId).isOk = true
        ∧ checkProductStock env i.productId i.quantity = true)
    (hfetch : env.fetchProduct bad.productId = Except.ok product)
    (hstock : env.fetchStock bad.productId = Except.error e) :
    validateItems env (pre ++ bad :: rest)
      = Except.error (CreateOrderError.insufficientStock product.name) := by
  induction pre with
  | nil =>
      have hcs : checkProductStock env bad.productId bad.quantity = false := by
        unfold checkProductStock
        rw [hstock]
      simp only [List.nil_append]
      unfold validateItems
      rw [hfetch]
      simp [hcs]
  | cons i pre' ih =>
      obtain ⟨hif, his⟩ := hpre i (List.mem_cons_self i pre')
      obtain ⟨prod, hprod⟩ : ∃ prod, env.fetchProduct i.productId = Except.ok prod := by
        cases hp : env.fetchProduct i.productId with
        | ok q => exact ⟨q, rfl⟩
        | error _ =>
            rw [hp] at hif
            simp [Except.isOk, Except.toBool] at hif
      have hrec := ih (fun j hj => hpre j (List.mem_cons_of_mem i hj))
      simp only [List.cons_append]
      unfold validateItems
      rw [hprod]
      simp [his, hrec]

/-- C8: a thrown or timed-out stock read makes checkProductStock report
false (fail closed), and an order request whose earlier items all pass
fails as a whole with the insufficient-stock error of the failing item — not
with the generic 500 — leaving the store untouched. -/
theorem stock_check_fail_closed_aborts_creation (env : ProductServiceEnv) (db : OrderDB)
    (orderId userId : Nat) (orderNumber : String) (req : CreateOrderRequest)
    (pre rest : List ItemRequest) (bad : ItemRequest) (product : ProductInfo) (e : String)
    (hsplit : req.items = pre ++ bad :: rest)
    (hval : createOrderRequestValid req = true)
    (hpre : ∀ i ∈ pre, (env.fetchProduct i.productId).isOk = true
        ∧ checkProductStock env i.productId i.quantity = true)
    (hfetch : env.fetchProduct bad.productId = Except.ok product)
    (hstock : env.fetchStock bad.productId = Except.error e) :
    checkProductStock env bad.productId bad.quantity = false ∧
    createOrder env db orderId userId orderNumber req
      = (db, Except.error (CreateOrderError.insufficientStock product.name)) := by
  have hv := validateItems_first_stock_error env pre rest bad product e hpre hfetch hstock
  constructor
  · unfold checkProductStock
    rw [hstock]
  · unfold createOrder createOrderPlan
    rw [hsplit, hval, hv]
    simp

/-- C8 witness: the timed-out stock read of product 2 fails the whole
request with the insufficient-stock error naming Gadget, and no row is
written. -/
theorem stock_check_fail_closed_witness :
    checkProductStock failingStockEnv 2 3 = false ∧
    createOrder failingStockEnv emptyOrderDB 50 7 "ORD-50" failingStockReq
      = (emptyOrderDB, Except.error (CreateOrderError.insufficientStock "Gadget")) := by
  have hval : createOrderRequestValid failingStockReq = true := by
    norm_num [createOrderRequestValid, failingStockReq, addressValid, sampleAddress]
    refine ⟨⟨⟨⟨⟨⟨⟨?_, ?_⟩, ?_⟩, ?_⟩, ?_⟩, ?_⟩, ?_⟩, ?_⟩ <;> decide
  have hpre : ∀ i ∈ [({ productId := 1, quantity := 1, unitPrice := 10 } : ItemRequest)],
      (failingStockEnv.fetchProduct i.productId).isOk = true
        ∧ checkProductStock failingStockEnv i.productId i.quantity = true := by
    intro i hi
    rw [List.mem_singleton.mp hi]
    constructor <;> simp [failingStockEnv, checkProductStock, Except.isOk, Except.toBool]
  exact stock_check_fail_closed_aborts_creation failingStockEnv emptyOrderDB 50 7 "ORD-50"
    failingStockReq [{ productId := 1, quantity := 1, unitPrice := 10 }] []
    { productId := 2, quantity := 3, unitPrice := 20 }
    { name := "Gadget", sku := "G-2", images := [] } "connect ETIMEDOUT"
    rfl hval hpre (by simp [failingStockEnv]) (by simp [failingStockEnv])

/-- Folding the item writes appends exactly the item rows. -/
theorem runWrites_item_writes (oid : Nat) (vs : List ValidatedItem) (db0 : OrderDB) :
    runWrites db0 (vs.map (fun v => fun db =>
        { db with orderItems := db.orderItems ++ [itemRowOf oid v] }))
      = { db0 with orderItems := db0.orderItems ++ vs.map (itemRowOf oid) } := by
  induction vs generalizing db0 with
  | nil => simp [runWrites]
  | cons v rest ih =>
      have h := ih { db0 with orderItems := db0.orderItems ++ [itemRowOf oid v] }
      unfold runWrites at h ⊢
      simp only [List.map_cons, List.foldl_cons]
      rw [h]
      simp

/-- Running every write of a create appends the order row and its item
rows. -/
theorem runWrites_createOrderWrites (db : OrderDB) (row : Order) (vs : List ValidatedItem) :
    runWrites db (createOrderWrites row vs)
      = { orders := db.orders ++ [row]
          orderItems := db.orderItems ++ vs.map (itemRowOf row.id) } := by
  have h := runWrites_item_writes row.id vs { db with orders := db.orders ++ [row] }
  unfold runWrites at h ⊢
  unfold createOrderWrites
  simp only [List.foldl_cons]
  exact h

/-- C1 as amended: a failure before the first write (validation, product
fetch, stock check) leaves the store untouched — also at every interruption
point — and a run of the route to completion makes the order row observable
together with one item row per validated item; but the order row and the
item rows are separate writes, so an interruption between them can expose
the order without its items (the counterexample). -/
theorem order_creation_failure_and_success_persistence (env : ProductServiceEnv)
    (db : OrderDB) (orderId userId : Nat) (orderNumber : String)
    (req : CreateOrderRequest) :
    (∀ e, createOrderPlan env orderId userId orderNumber req = Except.error e →
      (createOrder env db orderId userId orderNumber req).1 = db ∧
      ∀ k, createOrderInterrupted env db orderId userId orderNumber req k = db) ∧
    (∀ row vs, createOrderPlan env orderId userId orderNumber req = Except.ok (row, vs) →
      hasOrderRow db row.id = false → itemRowsOf db row.id = [] →
      hasOrderRow (createOrder env db orderId userId orderNumber req).1 row.id = true ∧
      itemRowsOf (createOrder env db orderId userId orderNumber req).1 row.id
        = vs.map (itemRowOf row.id)) := by
  constructor
  · intro e he
    constructor
    · simp [createOrder, he]
    · intro k
      simp [createOrderInterrupted, he]
  · intro row vs hok hno hni
    have hdb : (createOrder env db orderId userId orderNumber req).1
        = { orders := db.orders ++ [row]
            orderItems := db.orderItems ++ vs.map (itemRowOf row.id) } := by
      simp [createOrder, hok, runWrites_createOrderWrites]
    rw [hdb]
    constructor
    · unfold hasOrderRow at hno ⊢
      simp [List.any_append, hno]
    · unfold itemRowsOf at hni ⊢
      simp only [List.filter_append, hni, List.nil_append]
      refine List.filter_eq_self.mpr ?_
      intro a ha
      obtain ⟨v, -, rfl⟩ := List.mem_map.mp ha
      simp [itemRowOf]

/-- C1 counterexample: interrupting the create route after its first write —
Order.create done, OrderItem.create not reached — leaves order 42 observable
with no item rows, though the completed run stores its item row; the
persistence is not one atomic unit. -/
theorem order_persist_interruption_leaves_order_without_items :
    hasOrderRow
      (createOrderInterrupted alwaysStockedEnv emptyOrderDB 42 7 "ORD-42" oneItemReq 1)
      42 = true ∧
    itemRowsOf
      (createOrderInterrupted alwaysStockedEnv emptyOrderDB 42 7 "ORD-42" oneItemReq 1)
      42 = [] ∧
    itemRowsOf (createOrder alwaysStockedEnv emptyOrderDB 42 7 "ORD-42" oneItemReq).1 42
      ≠ [] := by
  have hval : createOrderRequestValid oneItemReq = true := by
    norm_num [createOrderRequestValid, oneItemReq, addressValid, sampleAddress]
    refine ⟨⟨⟨⟨⟨⟨⟨?_, ?_⟩, ?_⟩, ?_⟩, ?_⟩, ?_⟩, ?_⟩, ?_⟩ <;> decide
  simp only [oneItemReq] at hval
  refine ⟨?_, ?_, ?_⟩ <;>
    simp [createOrderInterrupted, createOrder, createOrderPlan, hval, validateItems,
      checkProductStock, alwaysStockedEnv, oneItemReq, createOrderWrites, runWrites,
      hasOrderRow, itemRowsOf, itemRowOf, emptyOrderDB]

/-- C1 witness: a request that fails before the first write — here the
validator itself — leaves the store untouched, both in the completed run and
at every interruption point. -/
theorem order_creation_persistence_witness :
    (createOrder alwaysStockedEnv emptyOrderDB 50 7 "ORD-50" invalidReq).1
      = emptyOrderDB ∧
    createOrderInterrupted alwaysStockedEnv emptyOrderDB 50 7 "ORD-50" invalidReq 1
      = emptyOrderDB := by
  have hplan : createOrderPlan alwaysStockedEnv 50 7 "ORD-50" invalidReq
      = Except.error CreateOrderError.validationFailed := by
    simp [createOrderPlan, createOrderRequestValid, invalidReq]
  have h := (order_creation_failure_and_success_persistence alwaysStockedEnv emptyOrderDB
      50 7 "ORD-50" invalidReq).1 CreateOrderError.validationFailed hplan
  exact ⟨h.1, h.2 1⟩

end ECommerce
